import Mathlib

/-!
Shallow embedding of the room-availability, blocked-date, pricing and
coupon logic of the adminplumeria dashboard (src/src/pages/Calendar.tsx and
src/src/pages/CreateBooking.tsx), together with theorems settling the
frozen claims about that logic.

Modelling conventions, used throughout:
* money values (prices, amounts) are rationals (the source uses JS numbers
  on decimal inputs);
* timestamps are integers (milliseconds, the value of Date.getTime on the
  parsed updated_at and created_at strings);
* a TypeScript field typed `T | null` (or optional) is `Option T`, with
  `none` standing for null/undefined;
* network fetches are abstracted by passing the fetched value as an
  argument (the source awaits the fetch and then computes purely);
* JS NaN propagation on dates is modelled explicitly by `JSDate.invalid`
  and `JSNum.nan`, because `new Date` on an unparseable string yields an
  Invalid Date whose comparisons are all false and whose arithmetic is NaN.
-/


namespace Calendar

/-- Accommodation record as used by Calendar.tsx (fields the availability
logic reads: id and total room inventory). -/
structure CalAccommodation where
  id : Int
  name : String
  type : String
  rooms : Int
deriving DecidableEq

/-- BlockedDate record of Calendar.tsx. `rooms` is `number | null`;
`updated_at` and `created_at` are stored here already parsed to
millisecond timestamps (the source parses the "DD/MM/YYYY, HH:MM:SS"
strings with `parseDate` before comparing). -/
structure BlockedDate where
  id : Int
  blocked_date : String
  reason : Option String
  accommodation_id : Option Int
  rooms : Option Int
  adult_price : Option ℚ
  child_price : Option ℚ
  updated_at : Int
  created_at : Int
deriving DecidableEq

/-- The timestamp key used to compare records:
`Math.max(parseDate(updated_at).getTime(), parseDate(created_at).getTime())`. -/
def tsKey (b : BlockedDate) : Int := max b.updated_at b.created_at

/-- The `relevantBlocked.reduce((latest, current) => ...)` step of
`calculateAvailableRooms`: JS reduce on a non-empty list `x :: xs` is a
left fold over `xs` starting from `x`. -/
def latestBlocked (x : BlockedDate) (xs : List BlockedDate) : BlockedDate :=
  xs.foldl (fun latest current => if tsKey current > tsKey latest then current else latest) x

/-- `calculateAvailableRooms` of Calendar.tsx (lines 129-213), with the
awaited `fetchBookedRooms` result passed in as `bookedRooms` (on fetch
failure the source supplies 0).  Returns `none` exactly when the source
returns null (accommodation not found).  With `rooms : Option Int`, the
string-normalisation block of the source (null/undefined and the strings
"null"/"" become undefined, numeric strings are converted) is the identity:
`none` plays undefined, `some n` a valid number. -/
def calculateAvailableRooms (accommodations : List CalAccommodation)
    (blockedDates : List BlockedDate) (bookedRooms : Int)
    (accommodationId : Int) (dateStr : String) : Option Int :=
  match accommodations.find? (fun a => a.id == accommodationId) with
  | none => none
  | some accommodation =>
    let totalRooms := accommodation.rooms
    let relevantBlocked := blockedDates.filter (fun item =>
      item.accommodation_id == some accommodationId && item.blocked_date == dateStr)
    match relevantBlocked with
    | [] => some (max 0 (totalRooms - bookedRooms))
    | x :: xs =>
      match (latestBlocked x xs).rooms with
      | none => some (max 0 (totalRooms - bookedRooms))
      | some blockedRoomsValue => some (max 0 (totalRooms + blockedRoomsValue - bookedRooms))

/-- The two mutually exclusive form sections of the calendar tool. -/
inductive ActiveSection where
  | price
  | inventory
deriving DecidableEq

/-- Body of the POST/PUT request built by `handleSaveBlockedDates`. -/
structure SavePayload where
  dates : List String
  reason : String
  accommodation_id : Option Int
  room_number : Option Int
  adult_price : Option ℚ
  child_price : Option ℚ
deriving DecidableEq

/-- Payload construction of `handleSaveBlockedDates` (Calendar.tsx lines
495-554).  `isUpdate`/`editingDate` reflect the create-vs-update decision
already taken; `adultPrice`/`childPrice` are the form fields (`none` models
the empty string); `selectedRoom`, `availableRooms` and `blockedRoomForDate`
are the component state consulted by the inventory branch;
`defaultAdult`/`defaultChild` are the accommodation base prices returned by
`getDefaultPrices`. -/
def buildPayload (activeSection : ActiveSection) (isUpdate : Bool)
    (editingDate : Option BlockedDate) (adultPrice childPrice : Option ℚ)
    (isBlockAll : Bool) (selectedRoom availableRooms blockedRoomForDate : Option Int)
    (defaultAdult defaultChild : Option ℚ) (dateStr reason : String)
    (selectedAccommodationId : Option Int) : SavePayload :=
  match activeSection with
  | .price =>
    let room_number : Option Int :=
      match isUpdate, editingDate with
      | true, some e => e.rooms
      | _, _ => none
    ⟨[dateStr], reason, selectedAccommodationId, room_number, adultPrice, childPrice⟩
  | .inventory =>
    let room_number : Option Int :=
      if isBlockAll then none
      else
        let currentSelected := selectedRoom.getD 0
        let currentAvailable := availableRooms.getD 0
        let roomValue := currentSelected - currentAvailable
        let roomValue := if isUpdate then blockedRoomForDate.getD 0 + roomValue else roomValue
        some roomValue
    match isUpdate, editingDate with
    | true, some e =>
      ⟨[dateStr], reason, selectedAccommodationId, room_number, e.adult_price, e.child_price⟩
    | _, _ =>
      ⟨[dateStr], reason, selectedAccommodationId, room_number, defaultAdult, defaultChild⟩

/-- Room display states used by the calendar grid. -/
inductive RoomState where
  | available
  | blocked
deriving DecidableEq

/-- One step of the forEach loop of `getRoomStatus`: a record with null
rooms marks every room index 1..totalRooms blocked; a record with a truthy
(nonzero) rooms number marks that single index blocked. -/
def roomStep (totalRooms : Int) (status : Int → Option RoomState)
    (block : BlockedDate) : Int → Option RoomState :=
  match block.rooms with
  | none => fun i =>
      if 1 ≤ i ∧ i ≤ totalRooms then some RoomState.blocked else status i
  | some r =>
      if r ≠ 0 then (fun i => if i = r then some RoomState.blocked else status i) else status

/-- `getRoomStatus` of Calendar.tsx (lines 290-316): the per-room status
dictionary for one (accommodation, date).  The dictionary is modelled as a
map `Int → Option RoomState` whose keys start as 1..rooms. -/
def getRoomStatus (accommodations : List CalAccommodation)
    (blockedDates : List BlockedDate) (editingDate : Option BlockedDate)
    (accommodationId : Int) (dateStr : String) : Int → Option RoomState :=
  match accommodations.find? (fun a => a.id == accommodationId) with
  | none => fun _ => none
  | some accommodation =>
    let init : Int → Option RoomState := fun i =>
      if 1 ≤ i ∧ i ≤ accommodation.rooms then some RoomState.available else none
    let blockedForDate := blockedDates.filter (fun b =>
      b.accommodation_id == some accommodationId && b.blocked_date == dateStr &&
      (match editingDate with
       | some e => b.id != e.id
       | none => true))
    blockedForDate.foldl (roomStep accommodation.rooms) init

/-- JS truthiness of an optional numeric field: null, undefined and 0 are
falsy. -/
def priceTruthy : Option ℚ → Bool
  | none => false
  | some q => q != 0

/-- JS truthiness of an optional string field: null, undefined and the
empty string are falsy. -/
def strTruthy : Option String → Bool
  | none => false
  | some s => s != ""

/-- Summary flags computed by `getBlockStatusForDate` for a calendar day. -/
structure BlockStatus where
  isFullyBlocked : Bool
  hasPartialBlocks : Bool
  hasPriceChanges : Bool
  hasReason : Bool
deriving DecidableEq

/-- `getBlockStatusForDate` of Calendar.tsx (lines 630-651). -/
def getBlockStatusForDate (blockedDates : List BlockedDate)
    (selectedAccommodationId : Option Int) (dateStr : String) : Option BlockStatus :=
  match selectedAccommodationId with
  | none => none
  | some accId =>
    let blockedDatesForDay := blockedDates.filter (fun b =>
      b.blocked_date == dateStr && b.accommodation_id == some accId)
    if blockedDatesForDay.isEmpty then none
    else some
      ⟨blockedDatesForDay.any (fun b => b.rooms == none),
       blockedDatesForDay.any (fun b => b.rooms != none),
       blockedDatesForDay.any (fun b => priceTruthy b.adult_price || priceTruthy b.child_price),
       blockedDatesForDay.any (fun b => strTruthy b.reason)⟩

end Calendar

namespace CreateBooking

/-- The two coupon discount types. -/
inductive DiscountType where
  | percentage
  | fixed
deriving DecidableEq

/-- Coupon as fetched by CreateBooking.tsx.  The numeric string fields are
modelled by their parsed values: `discount` is the parseFloat of the
discount string; `minAmount` and `maxDiscount` are nullable, with null
falsy and hence giving the defaults 0 and Infinity. -/
structure Coupon where
  code : String
  discount : ℚ
  discountType : DiscountType
  minAmount : Option ℚ
  maxDiscount : Option ℚ
  active : Bool
  accommodationType : Option String
deriving DecidableEq

/-- `calculateDiscount` of CreateBooking.tsx (lines 356-378). -/
def calculateDiscount (totalAmount : ℚ) (coupon : Option Coupon) : ℚ :=
  match coupon with
  | none => totalAmount
  | some c =>
    let discount := c.discount
    let minAmount := c.minAmount.getD 0
    if totalAmount < minAmount then totalAmount
    else
      match c.discountType with
      | .percentage =>
        let discountValue := totalAmount * (discount / 100)
        let finalDiscount :=
          match c.maxDiscount with
          | none => discountValue
          | some m => min discountValue m
        max 0 (totalAmount - finalDiscount)
      | .fixed => max 0 (totalAmount - discount)

/-- JS falsiness of an optional string: null, undefined and "" are falsy. -/
def strFalsy : Option String → Bool
  | none => true
  | some s => s == ""

/-- The eligibility filter of `fetchApplicableCoupons` (CreateBooking.tsx
lines 160-165): not active rejects; accommodationType === "All" accepts;
a JS-falsy accommodationType (null, undefined or "") accepts; otherwise
accommodationType must equal the selected accommodation display name. -/
def couponOffered (coupon : Coupon) (accommodationName : String) : Bool :=
  if !coupon.active then false
  else if coupon.accommodationType == some "All" then true
  else if strFalsy coupon.accommodationType then true
  else coupon.accommodationType == some accommodationName

/-- The coupon list shown for an accommodation: the fetched data filtered
by `couponOffered`. -/
def applicableCoupons (data : List Coupon) (accommodationName : String) : List Coupon :=
  data.filter (fun coupon => couponOffered coupon accommodationName)

/-- Modelled from the spec wording of the eligibility rule, for comparison
with the code: active, and accommodationType null/absent, or "All", or
case-sensitively equal to the accommodation name. -/
def couponOfferedSpec (coupon : Coupon) (accommodationName : String) : Prop :=
  coupon.active = true ∧
    (coupon.accommodationType = none ∨ coupon.accommodationType = some "All" ∨
     coupon.accommodationType = some accommodationName)

/-- Result of `new Date(s)` on a non-empty string: a millisecond timestamp,
or an Invalid Date whose getTime is NaN. -/
inductive JSDate where
  | invalid
  | time (ms : Int)
deriving DecidableEq

/-- A JS number that is an integer or NaN. -/
inductive JSNum where
  | nan
  | int (n : Int)
deriving DecidableEq

/-- JS `a <= b` on two Date values: false whenever either is Invalid,
because every comparison against NaN is false. -/
def jsDateLe : JSDate → JSDate → Bool
  | .time a, .time b => a ≤ b
  | _, _ => false

/-- `calculateNumberOfDays` of CreateBooking.tsx (lines 46-60).  Each input
is the corresponding string after `new Date`: `none` models the empty
string (falsy, caught by the first guard), `some JSDate.invalid` a
non-empty unparseable string, `some (JSDate.time ms)` a parseable one.
When both dates parse and checkOut > checkIn the source computes
Math.ceil(Math.abs(end - start) / 86400000); when either is Invalid the
`endDate <= startDate` guard is false (NaN comparison) and the ceil of NaN
is returned. -/
def calculateNumberOfDays (checkIn checkOut : Option JSDate) : JSNum :=
  match checkIn, checkOut with
  | none, _ => .int 0
  | some _, none => .int 0
  | some startDate, some endDate =>
    if jsDateLe endDate startDate then .int 0
    else
      match startDate, endDate with
      | .time a, .time b => .int (Int.ceil ((|b - a| : ℚ) / 86400000))
      | _, _ => .nan

/-- Accommodation as assembled by `fetchAccommodationDetails` in
CreateBooking.tsx (the fields the pricing and validation logic reads).
For villas `adultPrice` stores the flat per-night villa rate and
`RatePerPerson` the extra-person surcharge. -/
structure BAccommodation where
  id : Int
  name : String
  adultPrice : Option ℚ
  childPrice : Option ℚ
  capacity : Int
  type : Option String
  MaxPersonVilla : Option Int
  RatePerPerson : Option ℚ
  available_rooms : Int
deriving DecidableEq

/-- JS toFixed(2): round to two decimal places (nearest, ties up). -/
def round2 (q : ℚ) : ℚ := (⌊q * 100 + 1 / 2⌋ : ℚ) / 100

/-- A displayed amount: NaN or a number. -/
inductive JSAmount where
  | nan
  | val (q : ℚ)
deriving DecidableEq

/-- The price-calculation effect of CreateBooking.tsx (lines 383-459) as a
pure function: `none` when no accommodation is selected (the amount fields
are cleared), otherwise the (total_amount, discounted_amount) pair written
into the form.  Guest counts arrive as the parseInt(...) || 0 values the
source computes first. -/
def computePrice (selectedAccommodation : Option BAccommodation)
    (adults children extra_adults : Int) (checkIn checkOut : Option JSDate)
    (appliedCoupon : Option Coupon) : Option (JSAmount × JSAmount) :=
  match selectedAccommodation with
  | none => none
  | some acc =>
    match calculateNumberOfDays checkIn checkOut with
    | .nan => some (.nan, .nan)
    | .int numberOfDays =>
      if numberOfDays = 0 then some (.val 0, .val 0)
      else
        let baseTotal : ℚ :=
          if acc.type == some "Villa" then
            let villaPricePerDay := acc.adultPrice.getD 0
            let extraPersonChargePerDay := acc.RatePerPerson.getD 0 * (extra_adults : ℚ)
            (villaPricePerDay + extraPersonChargePerDay) * (numberOfDays : ℚ)
          else
            ((acc.adultPrice.getD 0) * (adults : ℚ) + (acc.childPrice.getD 0) * (children : ℚ)) *
              (numberOfDays : ℚ)
        let discountedTotal := calculateDiscount baseTotal appliedCoupon
        some (.val (round2 baseTotal), .val (round2 discountedTotal))

/-- The booking form state read by handleSubmit.  Textual fields keep their
string type (with "" falsy); the date fields are the parsed
check_in/check_out (`none` models the empty string); the count fields hold
the parseInt values of the corresponding inputs. -/
structure BookingForm where
  guest_name : String
  guest_email : String
  accommodation_id : String
  check_in : Option JSDate
  check_out : Option JSDate
  adults : Int
  children : Int
  extra_adults : Int
  rooms : Int
  food_veg : Int
  food_nonveg : Int
  food_jain : Int
  total_amount : String
  discounted_amount : String
  advance_amount : String
deriving DecidableEq

/-- Outcome of a submission attempt: an alert message that aborts before
any network write, or the POST of the booking payload. -/
inductive SubmitResult where
  | reject (message : String)
  | post (payload : BookingForm)
deriving DecidableEq

/-- The alert shown when the resolved available-room count is 0. -/
def fullyBookedMessage : String :=
  "This accommodation is fully booked for the selected date. Please choose another date or accommodation."

/-- The required-fields guard of handleSubmit (lines 1195-1205). -/
def requiredMissing (f : BookingForm) : Bool :=
  f.guest_name == "" || f.guest_email == "" || f.accommodation_id == "" ||
  f.check_in.isNone || f.check_out.isNone || f.total_amount == ""

/-- JS `new Date(check_in) >= new Date(check_out)` (line 1253): false when
either date is empty or unparseable. -/
def jsDateGe : Option JSDate → Option JSDate → Bool
  | some (.time a), some (.time b) => b ≤ a
  | _, _ => false

/-- Whether the selected accommodation is a villa (undefined type or no
selection compare unequal to "Villa"). -/
def isVillaSelected : Option BAccommodation → Bool
  | some a => a.type == some "Villa"
  | none => false

/-- `handleSubmit` of CreateBooking.tsx (lines 1192-1301) up to the network
write: the validation chain ends either in an alert that returns before the
POST, or in the POST of the payload built from the form. -/
def handleSubmit (f : BookingForm) (availableRooms : Int)
    (selectedAccommodation : Option BAccommodation) : SubmitResult :=
  if requiredMissing f then .reject "Please fill in all required fields"
  else if availableRooms == 0 then .reject fullyBookedMessage
  else
    let totalGuests := f.adults + f.children + f.extra_adults
    let totalFood := f.food_veg + f.food_nonveg + f.food_jain
    let capacityReject : Option String :=
      match selectedAccommodation with
      | some acc =>
        if acc.type == some "Villa" then
          if f.adults > acc.capacity then
            some ("Base capacity for the villa is " ++ toString acc.capacity ++
              ". Please enter " ++ toString acc.capacity ++
              " or fewer guests in the \"Adults\" field. Use the \"Extra Adult Guest\" field for any additional guests.")
          else none
        else
          if totalGuests > f.rooms * acc.capacity then
            some ("Maximum " ++ toString acc.capacity ++ " guests per room. You have " ++
              toString totalGuests ++ " guests for " ++ toString f.rooms ++ " room(s).")
          else none
      | none => none
    match capacityReject with
    | some msg => .reject msg
    | none =>
      if !isVillaSelected selectedAccommodation && totalFood != totalGuests then
        .reject "Food preferences must match total guests count"
      else if jsDateGe f.check_in f.check_out then
        .reject "Check-out must be after check-in"
      else if f.adults < 1 || f.rooms < 1 then
        .reject "Must have at least 1 adult and 1 room"
      else if !isVillaSelected selectedAccommodation && f.rooms > availableRooms then
        .reject ("Only " ++ toString availableRooms ++ " room(s) available for this accommodation")
      else .post f

/-- BlockedDate record as consumed by CreateBooking.tsx. -/
structure CBBlockedDate where
  id : Int
  accommodation_id : Int
  blocked_date : String
  rooms_blocked : Int
deriving DecidableEq

/-- Availability computed by the effect at CreateBooking.tsx lines 285-324:
total inventory minus booked count minus the rooms_blocked of the first
matching blocked record, clamped to be nonnegative. -/
def calculateAvailableRooms (totalRooms booked : Int) (blockedDates : List CBBlockedDate)
    (accommodationId : Int) (checkIn : String) : Int :=
  let blockedForDate := blockedDates.find? (fun b =>
    b.accommodation_id == accommodationId && b.blocked_date == checkIn)
  let blockedRooms :=
    match blockedForDate with
    | some b => b.rooms_blocked
    | none => 0
  max (totalRooms - booked - blockedRooms) 0

/-- The rooms-field adjustment at the end of the same effect (lines
312-320): for non-villa accommodations an entered rooms value above the
available count is overwritten with the available count (or 0 when none
are available); villas are left untouched. -/
def adjustRooms (accType : Option String) (rooms availableRoomsValue : Int) : Int :=
  if accType != some "Villa" then
    if rooms > availableRoomsValue then
      (if availableRoomsValue > 0 then availableRoomsValue else 0)
    else rooms
  else rooms

end CreateBooking

namespace Calendar

theorem latestBlocked_mem (x : BlockedDate) (xs : List BlockedDate) :
    latestBlocked x xs ∈ x :: xs := by
  induction xs generalizing x with
  | nil => simp [latestBlocked]
  | cons y ys ih =>
    have hstep : latestBlocked x (y :: ys) =
        latestBlocked (if tsKey y > tsKey x then y else x) ys := rfl
    rw [hstep]
    have h := ih (if tsKey y > tsKey x then y else x)
    rcases List.mem_cons.mp h with h1 | h1
    · rw [h1]
      split
      · exact List.mem_cons_of_mem _ (List.mem_cons_self _ _)
      · exact List.mem_cons_self _ _
    · exact List.mem_cons_of_mem _ (List.mem_cons_of_mem _ h1)

theorem tsKey_le_latest (x : BlockedDate) (xs : List BlockedDate) :
    ∀ b ∈ x :: xs, tsKey b ≤ tsKey (latestBlocked x xs) := by
  induction xs generalizing x with
  | nil =>
    intro b hb
    simp only [List.mem_singleton] at hb
    rw [hb]
    simp [latestBlocked]
  | cons y ys ih =>
    intro b hb
    have hstep : latestBlocked x (y :: ys) =
        latestBlocked (if tsKey y > tsKey x then y else x) ys := rfl
    have hx : tsKey x ≤ tsKey (if tsKey y > tsKey x then y else x) := by
      split <;> omega
    have hy : tsKey y ≤ tsKey (if tsKey y > tsKey x then y else x) := by
      split <;> omega
    have hlat : tsKey (if tsKey y > tsKey x then y else x) ≤
        tsKey (latestBlocked x (y :: ys)) := by
      rw [hstep]
      exact ih _ _ (List.mem_cons_self _ _)
    rcases List.mem_cons.mp hb with h1 | h1
    · rw [h1]; exact le_trans hx hlat
    · rcases List.mem_cons.mp h1 with h2 | h2
      · rw [h2]; exact le_trans hy hlat
      · rw [hstep]; exact ih _ _ (List.mem_cons_of_mem _ h2)

/-- C3: when several BlockedDate records match the same (accommodation, date)
pair, `calculateAvailableRooms` resolves them to the record whose maximum of
(updated_at, created_at) timestamps is largest: the selected record is one of
the matching records, its timestamp key dominates every matching record, and
the availability is computed from that record alone. -/
theorem claim3_latest_wins (accommodations : List CalAccommodation)
    (blockedDates : List BlockedDate) (bookedRooms accommodationId : Int)
    (dateStr : String) (accommodation : CalAccommodation)
    (x : BlockedDate) (xs : List BlockedDate)
    (hfind : accommodations.find? (fun a => a.id == accommodationId) = some accommodation)
    (hfilter : blockedDates.filter (fun item =>
      item.accommodation_id == some accommodationId && item.blocked_date == dateStr) = x :: xs) :
    latestBlocked x xs ∈ x :: xs ∧
    (∀ b ∈ x :: xs, tsKey b ≤ tsKey (latestBlocked x xs)) ∧
    calculateAvailableRooms accommodations blockedDates bookedRooms accommodationId dateStr =
      some (match (latestBlocked x xs).rooms with
            | none => max 0 (accommodation.rooms - bookedRooms)
            | some n => max 0 (accommodation.rooms + n - bookedRooms)) := by
  refine ⟨latestBlocked_mem x xs, tsKey_le_latest x xs, ?_⟩
  unfold calculateAvailableRooms
  rw [hfind, hfilter]
  cases h : (latestBlocked x xs).rooms <;> simp [h]

/-- Witness for C3 at a concrete input: two matching records, the later one
(timestamp 200) is selected and dominates both. -/
theorem claim3_latest_wins_witness :
    latestBlocked ⟨10, "2025-01-01", none, some 1, some 2, none, none, 100, 50⟩
        [⟨11, "2025-01-01", none, some 1, none, none, none, 200, 150⟩] ∈
      (⟨10, "2025-01-01", none, some 1, some 2, none, none, 100, 50⟩ :: [⟨11, "2025-01-01", none, some 1, none, none, none, 200, 150⟩]) ∧
    (∀ b ∈ (⟨10, "2025-01-01", none, some 1, some 2, none, none, 100, 50⟩ :: [(⟨11, "2025-01-01", none, some 1, none, none, none, 200, 150⟩ : BlockedDate)]),
      tsKey b ≤ tsKey (latestBlocked ⟨10, "2025-01-01", none, some 1, some 2, none, none, 100, 50⟩
        [⟨11, "2025-01-01", none, some 1, none, none, none, 200, 150⟩])) ∧
    calculateAvailableRooms [⟨1, "A", "Standard", 5⟩]
        [⟨10, "2025-01-01", none, some 1, some 2, none, none, 100, 50⟩,
         ⟨11, "2025-01-01", none, some 1, none, none, none, 200, 150⟩] 2 1 "2025-01-01" =
      some (match (latestBlocked ⟨10, "2025-01-01", none, some 1, some 2, none, none, 100, 50⟩
        [⟨11, "2025-01-01", none, some 1, none, none, none, 200, 150⟩]).rooms with
            | none => max 0 ((5 : Int) - 2)
            | some n => max 0 ((5 : Int) + n - 2)) :=
  claim3_latest_wins [⟨1, "A", "Standard", 5⟩]
    [⟨10, "2025-01-01", none, some 1, some 2, none, none, 100, 50⟩,
     ⟨11, "2025-01-01", none, some 1, none, none, none, 200, 150⟩] 2 1 "2025-01-01"
    ⟨1, "A", "Standard", 5⟩
    ⟨10, "2025-01-01", none, some 1, some 2, none, none, 100, 50⟩
    [⟨11, "2025-01-01", none, some 1, none, none, none, 200, 150⟩]
    (by rfl) (by rfl)

/-- C1 counterexample: an accommodation with 5 total rooms, 2 booked rooms,
and a single governing BlockedDate record whose rooms field is null.  The
claim says the resolution returns 0; `calculateAvailableRooms` actually
returns 3 = max 0 (5 - 2), because a null rooms value falls into the
"no valid blocked-rooms number" branch. -/
theorem claim1_cex :
    (⟨10, "2025-01-01", none, some 1, none, none, none, 100, 50⟩ : BlockedDate).rooms = none ∧
    calculateAvailableRooms [⟨1, "A", "Standard", 5⟩]
        [⟨10, "2025-01-01", none, some 1, none, none, none, 100, 50⟩] 2 1 "2025-01-01" =
      some 3 ∧
    (some (3 : Int) ≠ some (0 : Int)) := by
  refine ⟨rfl, by rfl, by decide⟩

/-- C1 amended: when the governing BlockedDateRecord (the latest matching
record) has rooms == null, `calculateAvailableRooms` does not return 0; it
ignores the record and returns max 0 (totalRooms - bookedRooms), exactly as
when no record matches.  (The null-means-fully-blocked reading exists only
in the display helpers `getRoomStatus` and `getBlockStatusForDate`.) -/
theorem claim1_amended (accommodations : List CalAccommodation)
    (blockedDates : List BlockedDate) (bookedRooms accommodationId : Int)
    (dateStr : String) (accommodation : CalAccommodation)
    (x : BlockedDate) (xs : List BlockedDate)
    (hfind : accommodations.find? (fun a => a.id == accommodationId) = some accommodation)
    (hfilter : blockedDates.filter (fun item =>
      item.accommodation_id == some accommodationId && item.blocked_date == dateStr) = x :: xs)
    (hrooms : (latestBlocked x xs).rooms = none) :
    calculateAvailableRooms accommodations blockedDates bookedRooms accommodationId dateStr =
      some (max 0 (accommodation.rooms - bookedRooms)) := by
  unfold calculateAvailableRooms
  rw [hfind, hfilter]
  simp [hrooms]

/-- Witness for the amended C1 at the counterexample input. -/
theorem claim1_amended_witness :
    calculateAvailableRooms [⟨1, "A", "Standard", 5⟩]
        [⟨10, "2025-01-01", none, some 1, none, none, none, 100, 50⟩] 2 1 "2025-01-01" =
      some (max 0 ((5 : Int) - 2)) :=
  claim1_amended [⟨1, "A", "Standard", 5⟩]
    [⟨10, "2025-01-01", none, some 1, none, none, none, 100, 50⟩] 2 1 "2025-01-01"
    ⟨1, "A", "Standard", 5⟩
    ⟨10, "2025-01-01", none, some 1, none, none, none, 100, 50⟩ []
    (by rfl) (by rfl) (by rfl)

/-- C2: the resolution formula of `calculateAvailableRooms`.  With the
accommodation found (total inventory `accommodation.rooms`): when no
BlockedDate record matches the (accommodation, date) pair the result is
max 0 (totalRooms - bookedRooms); when the governing (latest) record
carries a valid number n the result is max 0 (totalRooms + n - bookedRooms)
(the delta is added); and every returned count is nonnegative, even when
bookedRooms exceeds totalRooms. -/
theorem claim2_availability_formula (accommodations : List CalAccommodation)
    (blockedDates : List BlockedDate) (bookedRooms accommodationId : Int)
    (dateStr : String) (accommodation : CalAccommodation)
    (hfind : accommodations.find? (fun a => a.id == accommodationId) = some accommodation) :
    (blockedDates.filter (fun item =>
        item.accommodation_id == some accommodationId && item.blocked_date == dateStr) = [] →
      calculateAvailableRooms accommodations blockedDates bookedRooms accommodationId dateStr =
        some (max 0 (accommodation.rooms - bookedRooms))) ∧
    (∀ x xs n, blockedDates.filter (fun item =>
        item.accommodation_id == some accommodationId && item.blocked_date == dateStr) = x :: xs →
      (latestBlocked x xs).rooms = some n →
      calculateAvailableRooms accommodations blockedDates bookedRooms accommodationId dateStr =
        some (max 0 (accommodation.rooms + n - bookedRooms))) ∧
    (∀ r, calculateAvailableRooms accommodations blockedDates bookedRooms accommodationId dateStr =
        some r → 0 ≤ r) := by
  refine ⟨?_, ?_, ?_⟩
  · intro hfilter
    unfold calculateAvailableRooms
    rw [hfind, hfilter]
  · intro x xs n hfilter hrooms
    unfold calculateAvailableRooms
    rw [hfind, hfilter]
    simp [hrooms]
  · intro r hr
    unfold calculateAvailableRooms at hr
    rw [hfind] at hr
    rcases hfilter : blockedDates.filter (fun item =>
        item.accommodation_id == some accommodationId && item.blocked_date == dateStr) with
      _ | ⟨x, xs⟩
    · rw [hfilter] at hr
      simp only [Option.some.injEq] at hr
      omega
    · rw [hfilter] at hr
      rcases hrooms : (latestBlocked x xs).rooms with _ | n <;>
        simp only [hrooms, Option.some.injEq] at hr <;> omega

/-- Witness for C2: no-record case gives max 0 (5 - 2) = 3, a governing
record with rooms = 2 gives max 0 (5 + 2 - 2) = 5, and both are
nonnegative. -/
theorem claim2_availability_formula_witness :
    calculateAvailableRooms [⟨1, "A", "Standard", 5⟩] [] 2 1 "2025-01-01" =
      some (max 0 ((5 : Int) - 2)) ∧
    calculateAvailableRooms [⟨1, "A", "Standard", 5⟩]
        [⟨10, "2025-01-01", none, some 1, some 2, none, none, 100, 50⟩] 2 1 "2025-01-01" =
      some (max 0 ((5 : Int) + 2 - 2)) :=
  ⟨(claim2_availability_formula [⟨1, "A", "Standard", 5⟩] [] 2 1 "2025-01-01"
      ⟨1, "A", "Standard", 5⟩ (by rfl)).1 (by rfl),
   (claim2_availability_formula [⟨1, "A", "Standard", 5⟩]
      [⟨10, "2025-01-01", none, some 1, some 2, none, none, 100, 50⟩] 2 1 "2025-01-01"
      ⟨1, "A", "Standard", 5⟩ (by rfl)).2.1
      ⟨10, "2025-01-01", none, some 1, some 2, none, none, 100, 50⟩ [] 2 (by rfl) (by rfl)⟩

theorem roomStep_preserves_blocked (T : Int) (status : Int → Option RoomState)
    (block : BlockedDate) (i : Int) (h : status i = some RoomState.blocked) :
    roomStep T status block i = some RoomState.blocked := by
  unfold roomStep
  rcases block.rooms with _ | r
  · by_cases hi : 1 ≤ i ∧ i ≤ T <;> simp [hi, h]
  · by_cases hr : r = 0
    · simp [hr, h]
    · by_cases hir : i = r <;> simp [hr, hir, h]

theorem foldl_roomStep_preserves_blocked (T : Int) (l : List BlockedDate)
    (status : Int → Option RoomState) (i : Int) (h : status i = some RoomState.blocked) :
    (l.foldl (roomStep T) status) i = some RoomState.blocked := by
  induction l generalizing status with
  | nil => exact h
  | cons y ys ih => exact ih _ (roomStep_preserves_blocked T status y i h)

theorem foldl_roomStep_null_blocks (T : Int) (l : List BlockedDate)
    (b : BlockedDate) (hnull : b.rooms = none) (i : Int) (hi1 : 1 ≤ i) (hi2 : i ≤ T) :
    ∀ status, b ∈ l → (l.foldl (roomStep T) status) i = some RoomState.blocked := by
  induction l with
  | nil => intro status hb; cases hb
  | cons y ys ih =>
    intro status hb
    rw [List.foldl_cons]
    rcases List.mem_cons.mp hb with h1 | h1
    · apply foldl_roomStep_preserves_blocked
      rw [← h1]
      unfold roomStep
      rw [hnull]
      simp [hi1, hi2]
    · exact ih _ h1

theorem getBlockStatusForDate_fullyBlocked (blockedDates : List BlockedDate)
    (accId : Int) (dateStr : String) (b : BlockedDate) (hb : b ∈ blockedDates)
    (hdate : b.blocked_date = dateStr) (hacc : b.accommodation_id = some accId)
    (hnull : b.rooms = none) :
    ∃ st, getBlockStatusForDate blockedDates (some accId) dateStr = some st ∧
      st.isFullyBlocked = true := by
  have hmem : b ∈ blockedDates.filter (fun r =>
      r.blocked_date == dateStr && r.accommodation_id == some accId) := by
    simp [List.mem_filter, hb, hdate, hacc]
  have hne : (blockedDates.filter (fun r =>
      r.blocked_date == dateStr && r.accommodation_id == some accId)).isEmpty = false := by
    cases hl2 : blockedDates.filter (fun r =>
        r.blocked_date == dateStr && r.accommodation_id == some accId) with
    | nil => rw [hl2] at hmem; cases hmem
    | cons z zs => rfl
  refine ⟨⟨(blockedDates.filter (fun r =>
        r.blocked_date == dateStr && r.accommodation_id == some accId)).any (fun r => r.rooms == none),
      (blockedDates.filter (fun r =>
        r.blocked_date == dateStr && r.accommodation_id == some accId)).any (fun r => r.rooms != none),
      (blockedDates.filter (fun r =>
        r.blocked_date == dateStr && r.accommodation_id == some accId)).any
          (fun r => priceTruthy r.adult_price || priceTruthy r.child_price),
      (blockedDates.filter (fun r =>
        r.blocked_date == dateStr && r.accommodation_id == some accId)).any
          (fun r => strTruthy r.reason)⟩, ?_, ?_⟩
  · simp only [getBlockStatusForDate]
    rw [if_neg (by rw [hne]; simp)]
  · simp only [List.any_eq_true]
    exact ⟨b, hmem, by rw [hnull]; rfl⟩

/-- C9: saving from the price section with no existing record for the
(accommodation, date) pair builds a payload with room_number = null, while
the same client reads a null rooms value as "all rooms blocked": any
matching record with null rooms makes `getBlockStatusForDate` report
isFullyBlocked and makes `getRoomStatus` mark every room index
1..totalRooms blocked. -/
theorem claim9_price_create_fully_blocks
    (adultPrice childPrice defaultAdult defaultChild : Option ℚ) (isBlockAll : Bool)
    (selectedRoom availableRooms blockedRoomForDate : Option Int)
    (dateStr reason : String) (accIdOpt : Option Int)
    (accommodations : List CalAccommodation) (blockedDates : List BlockedDate)
    (accommodation : CalAccommodation) (accommodationId : Int) (b : BlockedDate)
    (hfind : accommodations.find? (fun a => a.id == accommodationId) = some accommodation)
    (hb : b ∈ blockedDates) (hdate : b.blocked_date = dateStr)
    (hacc : b.accommodation_id = some accommodationId) (hnull : b.rooms = none) :
    (buildPayload .price false none adultPrice childPrice isBlockAll selectedRoom
        availableRooms blockedRoomForDate defaultAdult defaultChild dateStr reason
        accIdOpt).room_number = none ∧
    (∃ st, getBlockStatusForDate blockedDates (some accommodationId) dateStr = some st ∧
        st.isFullyBlocked = true) ∧
    (∀ i, 1 ≤ i → i ≤ accommodation.rooms →
      getRoomStatus accommodations blockedDates none accommodationId dateStr i =
        some RoomState.blocked) := by
  refine ⟨rfl, getBlockStatusForDate_fullyBlocked blockedDates accommodationId dateStr b
    hb hdate hacc hnull, ?_⟩
  intro i hi1 hi2
  unfold getRoomStatus
  rw [hfind]
  apply foldl_roomStep_null_blocks _ _ b hnull i hi1 hi2
  simp [List.mem_filter, hb, hdate, hacc]

/-- Witness for C9: one null-rooms record on 2025-01-01 for accommodation 1
(5 rooms); the price-section create payload carries room_number = null, the
day reports fully blocked, and room 3 shows blocked. -/
theorem claim9_price_create_fully_blocks_witness :
    (buildPayload .price false none (some 1000) none false (some 0) (some 0) none
        (some 900) (some 400) "2025-01-01" "" (some 1)).room_number = none ∧
    (∃ st, getBlockStatusForDate
        [⟨10, "2025-01-01", none, some 1, none, none, none, 100, 50⟩] (some 1) "2025-01-01" =
          some st ∧ st.isFullyBlocked = true) ∧
    (∀ i, 1 ≤ i → i ≤ (⟨1, "A", "Standard", 5⟩ : CalAccommodation).rooms →
      getRoomStatus [⟨1, "A", "Standard", 5⟩]
          [⟨10, "2025-01-01", none, some 1, none, none, none, 100, 50⟩] none 1 "2025-01-01" i =
        some RoomState.blocked) :=
  claim9_price_create_fully_blocks (some 1000) none (some 900) (some 400) false
    (some 0) (some 0) none "2025-01-01" "" (some 1)
    [⟨1, "A", "Standard", 5⟩]
    [⟨10, "2025-01-01", none, some 1, none, none, none, 100, 50⟩]
    ⟨1, "A", "Standard", 5⟩ 1
    ⟨10, "2025-01-01", none, some 1, none, none, none, 100, 50⟩
    (by rfl) (by simp) (by rfl) (by rfl) (by rfl)

end Calendar

namespace CreateBooking

/-- C4: `calculateDiscount` returns the base amount unchanged when no coupon
is applied or when the base amount is below the minimum (defaulting to 0 for
a null minAmount); subtracts min(base * discount / 100, maxDiscount or
Infinity) for a percentage coupon and the flat discount for a fixed coupon,
clamped at 0; and in particular 100 with a 10 percent coupon capped at 5
gives 95. -/
theorem claim4_discount_rules (baseAmount : ℚ) (c : Coupon) :
    calculateDiscount baseAmount none = baseAmount ∧
    (baseAmount < c.minAmount.getD 0 → calculateDiscount baseAmount (some c) = baseAmount) ∧
    (¬ baseAmount < c.minAmount.getD 0 → c.discountType = DiscountType.percentage →
      calculateDiscount baseAmount (some c) =
        max 0 (baseAmount -
          (match c.maxDiscount with
           | none => baseAmount * (c.discount / 100)
           | some m => min (baseAmount * (c.discount / 100)) m))) ∧
    (¬ baseAmount < c.minAmount.getD 0 → c.discountType = DiscountType.fixed →
      calculateDiscount baseAmount (some c) = max 0 (baseAmount - c.discount)) ∧
    (0 ≤ baseAmount → 0 ≤ calculateDiscount baseAmount (some c)) ∧
    calculateDiscount 100 (some ⟨"SAVE10", 10, DiscountType.percentage, none, some 5, true, none⟩) = 95 := by
  refine ⟨rfl, ?_, ?_, ?_, ?_, ?_⟩
  · intro h
    simp [calculateDiscount, h]
  · intro h hp
    cases hmax : c.maxDiscount <;> simp [calculateDiscount, h, hp, hmax]
  · intro h hf
    simp [calculateDiscount, h, hf]
  · intro h0
    unfold calculateDiscount
    by_cases hlt : baseAmount < c.minAmount.getD 0
    · simpa [hlt]
    · cases hdt : c.discountType <;> simp [hlt, hdt]
  · show max 0 (100 - min ((100 : ℚ) * (10 / 100)) 5) = 95
    norm_num [max_def, min_def]

/-- Witness for C4: the percentage branch at base 100, discount 10, cap 5. -/
theorem claim4_discount_rules_witness :
    calculateDiscount 100 (some ⟨"SAVE10", 10, DiscountType.percentage, none, some 5, true, none⟩) =
      max 0 (100 - min ((100 : ℚ) * (10 / 100)) 5) :=
  (claim4_discount_rules 100 ⟨"SAVE10", 10, DiscountType.percentage, none, some 5, true, none⟩).2.2.1
    (by norm_num) rfl

/-- C5 counterexample: an active coupon whose accommodationType is the empty
string is offered by the code (the JS-falsy check accepts it), but the
claimed rule (null/absent, "All", or equal to the accommodation name)
rejects it. -/
theorem claim5_cex :
    couponOffered ⟨"C1", 10, DiscountType.fixed, none, none, true, some ""⟩ "Villa A" = true ∧
    ¬ couponOfferedSpec ⟨"C1", 10, DiscountType.fixed, none, none, true, some ""⟩ "Villa A" := by
  constructor
  · rfl
  · intro h
    rcases h with ⟨_, h | h | h⟩ <;> simp at h

/-- C5 amended: a fetched coupon is offered for an accommodation exactly
when it is active and its accommodationType is null/absent, the empty
string, the string "All", or case-sensitively equal to the accommodation
display name (not its type). -/
theorem claim5_amended (data : List Coupon) (c : Coupon) (accommodationName : String) :
    (c ∈ applicableCoupons data accommodationName ↔
      c ∈ data ∧ couponOffered c accommodationName = true) ∧
    (couponOffered c accommodationName = true ↔
      (c.active = true ∧
        (c.accommodationType = none ∨ c.accommodationType = some "" ∨
         c.accommodationType = some "All" ∨ c.accommodationType = some accommodationName))) := by
  constructor
  · simp [applicableCoupons, List.mem_filter]
  · rcases c with ⟨code, d, dt, mn, mx, active, atype⟩
    cases active
    · simp [couponOffered]
    · rcases atype with _ | s
      · simp [couponOffered, strFalsy]
      · simp only [couponOffered, strFalsy]
        by_cases hAll : s = "All"
        · subst hAll; simp
        · by_cases hE : s = ""
          · subst hE; simp
          · simp [hAll, hE]

/-- C6 counterexample: an unparseable (non-empty) check-in together with a
valid check-out yields NaN, not 0 — the NaN comparison makes the
`endDate <= startDate` guard false, and Math.ceil(NaN) is NaN. -/
theorem claim6_cex :
    calculateNumberOfDays (some JSDate.invalid) (some (JSDate.time 86400000)) = JSNum.nan ∧
    calculateNumberOfDays (some JSDate.invalid) (some (JSDate.time 86400000)) ≠ JSNum.int 0 :=
  ⟨rfl, by decide⟩

/-- C6 amended: `calculateNumberOfDays` returns 0 when either date is
absent (empty string) or when both parse and checkOut <= checkIn; for
parsed dates with checkOut > checkIn it returns
ceil((checkOut - checkIn) / 86400000), which equals the exact day count d
whenever the difference is exactly d days; and for a non-empty unparseable
date on either side it returns NaN (not 0). -/
theorem claim6_amended (checkIn checkOut : Option JSDate) (a b d : Int) :
    (checkIn = none → calculateNumberOfDays checkIn checkOut = JSNum.int 0) ∧
    (checkOut = none → calculateNumberOfDays checkIn checkOut = JSNum.int 0) ∧
    (checkIn = some (JSDate.time a) → checkOut = some (JSDate.time b) → b ≤ a →
      calculateNumberOfDays checkIn checkOut = JSNum.int 0) ∧
    (checkIn = some (JSDate.time a) → checkOut = some (JSDate.time b) → a < b →
      calculateNumberOfDays checkIn checkOut =
        JSNum.int (Int.ceil (((b - a : Int) : ℚ) / 86400000))) ∧
    (checkIn = some (JSDate.time a) → checkOut = some (JSDate.time b) → a < b →
      b - a = d * 86400000 → calculateNumberOfDays checkIn checkOut = JSNum.int d) ∧
    (checkIn = some JSDate.invalid → checkOut ≠ none →
      calculateNumberOfDays checkIn checkOut = JSNum.nan) ∧
    (checkOut = some JSDate.invalid → checkIn ≠ none →
      calculateNumberOfDays checkIn checkOut = JSNum.nan) := by
  have hceil : ∀ h1 : checkIn = some (JSDate.time a), ∀ h2 : checkOut = some (JSDate.time b),
      a < b → calculateNumberOfDays checkIn checkOut =
        JSNum.int (Int.ceil (((b - a : Int) : ℚ) / 86400000)) := by
    intro h1 h2 hab
    subst h1; subst h2
    have hnle : ¬ b ≤ a := not_le.mpr hab
    have habs : |(b : ℚ) - (a : ℚ)| = (b : ℚ) - (a : ℚ) :=
      abs_of_pos (by exact_mod_cast sub_pos.mpr hab)
    simp [calculateNumberOfDays, jsDateLe, hnle]
    rw [habs]
  refine ⟨?_, ?_, ?_, hceil, ?_, ?_, ?_⟩
  · intro h; subst h; rfl
  · intro h; subst h; cases checkIn <;> rfl
  · intro h1 h2 hba
    subst h1; subst h2
    simp [calculateNumberOfDays, jsDateLe, hba]
  · intro h1 h2 hab hd
    rw [hceil h1 h2 hab, hd]
    have : (((d * 86400000 : Int) : ℚ)) / 86400000 = (d : ℚ) := by
      push_cast
      field_simp
    rw [this, Int.ceil_intCast]
  · intro h1 h2
    subst h1
    cases checkOut with
    | none => exact absurd rfl h2
    | some e => cases e <;> rfl
  · intro h1 h2
    subst h1
    cases checkIn with
    | none => exact absurd rfl h2
    | some s => cases s <;> rfl

/-- Witness for the amended C6: two midnight timestamps exactly two days
apart give 2 nights. -/
theorem claim6_amended_witness :
    calculateNumberOfDays (some (JSDate.time 0)) (some (JSDate.time 172800000)) = JSNum.int 2 :=
  (claim6_amended (some (JSDate.time 0)) (some (JSDate.time 172800000)) 0 172800000 2).2.2.2.2.1
    rfl rfl (by decide) (by decide)

/-- C7: for a Villa accommodation and a stay of n >= 1 nights the computed
total_amount is ((flat villa rate stored in adultPrice) + RatePerPerson *
extraAdultCount) * n rounded to two decimals; for any selected
accommodation with 0 nights both amounts are set to 0.00; and the spec
example (rate 5000, extra-person rate 500, 3 extra adults, 2 nights) gives
13000. -/
theorem claim7_villa_pricing (acc : BAccommodation) (adults children extra_adults : Int)
    (checkIn checkOut : Option JSDate) (coupon : Option Coupon) (n : Int)
    (hvilla : acc.type = some "Villa")
    (hn : calculateNumberOfDays checkIn checkOut = JSNum.int n) (hpos : 1 ≤ n) :
    (∃ d, computePrice (some acc) adults children extra_adults checkIn checkOut coupon =
      some (JSAmount.val (round2 ((acc.adultPrice.getD 0 +
        acc.RatePerPerson.getD 0 * (extra_adults : ℚ)) * (n : ℚ))), d)) ∧
    (∀ (acc2 : BAccommodation) (a2 c2 e2 : Int) (ci2 co2 : Option JSDate) (cp2 : Option Coupon),
      calculateNumberOfDays ci2 co2 = JSNum.int 0 →
      computePrice (some acc2) a2 c2 e2 ci2 co2 cp2 = some (JSAmount.val 0, JSAmount.val 0)) ∧
    computePrice (some ⟨1, "V", some 5000, some 0, 10, some "Villa", some 15, some 500, 1⟩)
        2 0 3 (some (JSDate.time 0)) (some (JSDate.time 172800000)) none =
      some (JSAmount.val 13000, JSAmount.val 13000) := by
  refine ⟨?_, ?_, ?_⟩
  · refine ⟨JSAmount.val (round2 (calculateDiscount ((acc.adultPrice.getD 0 +
      acc.RatePerPerson.getD 0 * (extra_adults : ℚ)) * (n : ℚ)) coupon)), ?_⟩
    have hne : ¬ n = 0 := by omega
    simp [computePrice, hn, hne, hvilla]
  · intro acc2 a2 c2 e2 ci2 co2 cp2 h0
    simp [computePrice, h0]
  · have h2 : calculateNumberOfDays (some (JSDate.time 0)) (some (JSDate.time 172800000)) =
        JSNum.int 2 := by
      simp [calculateNumberOfDays, jsDateLe]
      norm_num
    simp only [computePrice, h2]
    norm_num [calculateDiscount, round2]

/-- Witness for C7 at the spec example: villa rate 5000, extra-person rate
500, 3 extra adults, 2 nights. -/
theorem claim7_villa_pricing_witness :
    ∃ d, computePrice (some ⟨1, "V", some 5000, some 0, 10, some "Villa", some 15, some 500, 1⟩)
        2 0 3 (some (JSDate.time 0)) (some (JSDate.time 172800000)) none =
      some (JSAmount.val (round2
        (((⟨1, "V", some 5000, some 0, 10, some "Villa", some 15, some 500, 1⟩ :
            BAccommodation).adultPrice.getD 0 +
          (⟨1, "V", some 5000, some 0, 10, some "Villa", some 15, some 500, 1⟩ :
            BAccommodation).RatePerPerson.getD 0 * (3 : ℚ)) * (2 : ℚ))), d) :=
  (claim7_villa_pricing ⟨1, "V", some 5000, some 0, 10, some "Villa", some 15, some 500, 1⟩
    2 0 3 (some (JSDate.time 0)) (some (JSDate.time 172800000)) none 2
    rfl (by simp [calculateNumberOfDays, jsDateLe]; norm_num) (by decide)).1

/-- C8: whenever the resolved available-room count is 0, handleSubmit never
reaches the POST of the booking payload, and as soon as the required-fields
guard passes the rejection carries the fully-booked alert message. -/
theorem claim8_fully_booked_no_post (f : BookingForm) (acc : Option BAccommodation) :
    (∀ p, handleSubmit f 0 acc ≠ SubmitResult.post p) ∧
    (requiredMissing f = false → handleSubmit f 0 acc = SubmitResult.reject fullyBookedMessage) := by
  constructor
  · intro p
    unfold handleSubmit
    cases h : requiredMissing f <;> simp [h]
  · intro h
    unfold handleSubmit
    simp [h]

/-- Witness for C8: a fully filled form with 0 available rooms is rejected
with the fully-booked message. -/
theorem claim8_fully_booked_no_post_witness :
    handleSubmit ⟨"Guest", "guest@example.com", "1", some (JSDate.time 0),
        some (JSDate.time 86400000), 2, 0, 0, 1, 2, 0, 0, "1000.00", "1000.00", "0"⟩ 0 none =
      SubmitResult.reject fullyBookedMessage :=
  (claim8_fully_booked_no_post ⟨"Guest", "guest@example.com", "1", some (JSDate.time 0),
    some (JSDate.time 86400000), 2, 0, 0, 1, 2, 0, 0, "1000.00", "1000.00", "0"⟩ none).2 (by rfl)

/-- C10: after the availability effect runs, a non-villa selection never
keeps a rooms entry above the computed available count: a larger entered
value is overwritten with the available count (0 when none are available),
a smaller one is kept; villa selections are exempt. -/
theorem claim10_rooms_clamped (accType : Option String) (rooms totalRooms booked : Int)
    (blockedDates : List CBBlockedDate) (accommodationId : Int) (checkIn : String)
    (hnv : accType ≠ some "Villa") :
    adjustRooms accType rooms
        (calculateAvailableRooms totalRooms booked blockedDates accommodationId checkIn) ≤
      calculateAvailableRooms totalRooms booked blockedDates accommodationId checkIn ∧
    (rooms > calculateAvailableRooms totalRooms booked blockedDates accommodationId checkIn →
      adjustRooms accType rooms
          (calculateAvailableRooms totalRooms booked blockedDates accommodationId checkIn) =
        calculateAvailableRooms totalRooms booked blockedDates accommodationId checkIn) ∧
    (rooms ≤ calculateAvailableRooms totalRooms booked blockedDates accommodationId checkIn →
      adjustRooms accType rooms
          (calculateAvailableRooms totalRooms booked blockedDates accommodationId checkIn) = rooms) ∧
    (∀ r a : Int, adjustRooms (some "Villa") r a = r) := by
  have hA : 0 ≤ calculateAvailableRooms totalRooms booked blockedDates accommodationId checkIn :=
    le_max_right _ _
  have hne : (accType != some "Villa") = true := bne_iff_ne.mpr hnv
  unfold adjustRooms
  rw [if_pos hne]
  refine ⟨?_, ?_, ?_, ?_⟩
  · split <;> [skip; omega]
    split <;> omega
  · intro hgt
    rw [if_pos hgt]
    split <;> omega
  · intro hle
    rw [if_neg (by omega)]
  · intro r a
    rw [if_neg (by simp)]

/-- Witness for C10: a Standard selection with 6 rooms entered against an
available count of 3 (5 total, 2 booked) is clamped down to at most 3. -/
theorem claim10_rooms_clamped_witness :
    adjustRooms (some "Standard") 6 (calculateAvailableRooms 5 2 [] 1 "2025-01-01") ≤
      calculateAvailableRooms 5 2 [] 1 "2025-01-01" :=
  (claim10_rooms_clamped (some "Standard") 6 5 2 [] 1 "2025-01-01" (by simp)).1

end CreateBooking
